import Mathlib

/-
  Verification development for the Sandwich POS repository.

  Shallow embedding of the offline-tolerant data-access layer
  (src/js/database.js: class DatabaseManager), the SQL inventory trigger
  (src/sql/schema.sql: update_inventory_after_sale) and the service-worker
  cache lifecycle (src/sw.js).  JavaScript objects become association lists
  of string fields, localStorage becomes an association list from storage
  keys to parsed table contents, and the Supabase client becomes a Backend
  record of response functions (one per remote call kind).  Asynchronous
  code is modelled by explicit state passing; the for...of loop of
  processOfflineQueue, which iterates a live array that the loop body may
  extend, is modelled with an explicit index and a fuel bound.
-/

set_option autoImplicit false

namespace Sandwich

/-- A record (one row), as a JavaScript object: field name to value.
Spread syntax in the source overrides fields, modelled by `setField`. -/
abbrev RecordData := List (String × String)

/-- Override-or-add a single field, as a JavaScript spread member does. -/
def setField (data : RecordData) (k v : String) : RecordData :=
  (data.filter (fun p => p.1 ≠ k)) ++ [(k, v)]

/-- Apply every field of `upd` over `base`, as a trailing object spread. -/
def mergeFields (base upd : RecordData) : RecordData :=
  upd.foldl (fun acc p => setField acc p.1 p.2) base

/-- Read a field of a record. -/
def lookupField (data : RecordData) (k : String) : Option String :=
  (data.find? (fun p => p.1 = k)).map (fun p => p.2)

/-- A queued mutation, as pushed onto this.offlineQueue in database.js:
operation kind, target table, and payload (data, or id and updates). -/
inductive QOp where
  | create (table : String) (data : RecordData)
  | update (table : String) (id : String) (updates : RecordData)
  | delete (table : String) (id : String)
  deriving DecidableEq, Repr

/-- The browser localStorage, restricted to what getOfflineData reads:
storage key to (parsed) list of records.  A missing key parses as []. -/
abbrev LocalStore := List (String × List RecordData)

/-- localStorage.getItem(key) followed by JSON.parse, with default []. -/
def lookupLS (ls : LocalStore) (k : String) : List RecordData :=
  match ls.find? (fun p => p.1 = k) with
  | some p => p.2
  | none => []

/-- Read filters: only the limit key matters on the offline path
(database.js getOfflineData); the remaining filter kinds are consumed by
the remote query, modelled inside Backend.selectRes. -/
structure Filters where
  limit : Option Nat
  deriving DecidableEq, Repr

/-- The remote Supabase client, as the facade observes it: one response
function per call kind.  An error value models a thrown network or
backend error. -/
structure Backend where
  insertRes : String → RecordData → Except Unit RecordData
  updateRes : String → String → RecordData → Except Unit RecordData
  deleteRes : String → String → Except Unit RecordData
  selectRes : String → Filters → Except Unit (List RecordData)

/-- The mutable state of a DatabaseManager instance: whether a Supabase
client was created, the online flag, the in-memory offline queue, and the
browser localStorage (which, unlike the queue, survives a page reload). -/
structure DBState where
  hasSupabase : Bool
  isOnline : Bool
  offlineQueue : List QOp
  localStore : LocalStore
  deriving DecidableEq, Repr

/-- DatabaseManager.constructor plus init (database.js lines 3 to 19):
offlineQueue starts empty, isOnline starts as navigator.onLine but is
forced to false when the Supabase library is not loaded.  The constructor
never reads the queue back from any persistent storage. -/
def initState (supabaseLoaded navigatorOnLine : Bool) (ls : LocalStore) : DBState :=
  { hasSupabase := supabaseLoaded
    isOnline := if supabaseLoaded then navigatorOnLine else false
    offlineQueue := []
    localStore := ls }

/-- A page reload: a fresh DatabaseManager is constructed; localStorage
persists, everything else is re-initialised. -/
def pageReload (supabaseLoaded navigatorOnLine : Bool) (st : DBState) : DBState :=
  initState supabaseLoaded navigatorOnLine st.localStore

/-- DatabaseManager.create (database.js lines 77 to 100).  Online with a
client: attempt the remote insert; on error, push the operation onto the
offline queue and re-throw.  Otherwise: build a local record with id
Date.now().toString() and an _offline tag, push it, and return it. -/
def create (b : Backend) (nowMs : Nat) (st : DBState) (table : String)
    (data : RecordData) : Except Unit RecordData × DBState :=
  if st.isOnline && st.hasSupabase then
    match b.insertRes table data with
    | Except.ok result => (Except.ok result, st)
    | Except.error e =>
        (Except.error e,
         { st with offlineQueue := st.offlineQueue ++ [QOp.create table data] })
  else
    let id := Nat.repr nowMs
    let record := setField (setField data "id" id) "_offline" "true"
    (Except.ok record,
     { st with offlineQueue := st.offlineQueue ++ [QOp.create table record] })

/-- DatabaseManager.getOfflineData (database.js lines 178 to 190): parse
the persisted copy of the table, drop records tagged _deleted, apply the
limit filter when it is truthy. -/
def getOfflineData (ls : LocalStore) (table : String) (filters : Filters) :
    List RecordData :=
  let data := lookupLS ls ("offline_" ++ table)
  let filteredData := data.filter (fun item => lookupField item "_deleted" ≠ some "true")
  match filters.limit with
  | some n => if n = 0 then filteredData else filteredData.take n
  | none => filteredData

/-- DatabaseManager.read (database.js lines 102 to 131): online, run the
remote select and fall back to the offline copy on error; offline, read
the offline copy directly. -/
def read (b : Backend) (st : DBState) (table : String) (filters : Filters) :
    List RecordData :=
  if st.isOnline && st.hasSupabase then
    match b.selectRes table filters with
    | Except.ok data => data
    | Except.error _ => getOfflineData st.localStore table filters
  else
    getOfflineData st.localStore table filters

/-- DatabaseManager.update (database.js lines 133 to 153).  Online: on a
remote error, queue the operation and re-throw.  Offline: queue it and
return the synthesized record with id, the updates and an _offline tag. -/
def update (b : Backend) (st : DBState) (table id : String)
    (updates : RecordData) : Except Unit RecordData × DBState :=
  if st.isOnline && st.hasSupabase then
    match b.updateRes table id updates with
    | Except.ok row => (Except.ok row, st)
    | Except.error e =>
        (Except.error e,
         { st with offlineQueue := st.offlineQueue ++ [QOp.update table id updates] })
  else
    (Except.ok (setField (mergeFields [("id", id)] updates) "_offline" "true"),
     { st with offlineQueue := st.offlineQueue ++ [QOp.update table id updates] })

/-- DatabaseManager.delete (database.js lines 155 to 175), analogous. -/
def delete (b : Backend) (st : DBState) (table id : String) :
    Except Unit RecordData × DBState :=
  if st.isOnline && st.hasSupabase then
    match b.deleteRes table id with
    | Except.ok row => (Except.ok row, st)
    | Except.error e =>
        (Except.error e,
         { st with offlineQueue := st.offlineQueue ++ [QOp.delete table id] })
  else
    (Except.ok [("id", id), ("_deleted", "true"), ("_offline", "true")],
     { st with offlineQueue := st.offlineQueue ++ [QOp.delete table id] })

/-- One iteration body of the replay loop in processOfflineQueue
(database.js lines 205 to 217): dispatch on the operation kind back into
the facade call. -/
def replayStep (b : Backend) (nowMs : Nat) (st : DBState) (op : QOp) :
    Except Unit RecordData × DBState :=
  match op with
  | QOp.create t d => create b nowMs st t d
  | QOp.update t i u => update b st t i u
  | QOp.delete t i => delete b st t i

/-- The remote outcome a queued operation meets when replayed online. -/
def opResult (b : Backend) (op : QOp) : Except Unit RecordData :=
  match op with
  | QOp.create t d => b.insertRes t d
  | QOp.update t i u => b.updateRes t i u
  | QOp.delete t i => b.deleteRes t i

/-- The for...of loop of processOfflineQueue (database.js lines 205 to
225).  The loop iterates this.offlineQueue by index while the body, via
the facade calls, may push onto that same live array; the index advances
by one per iteration and the loop ends when the index reaches the current
length.  `fuel` bounds the number of iterations modelled: a `none` first
component means the loop was still running when the fuel ran out.  The
second component is the trace of operations attempted, in order. -/
def processLoop (b : Backend) (nowMs : Nat) :
    Nat → Nat → DBState → List QOp → List QOp → Option DBState × List QOp
  | 0, i, st, failed, trace =>
      if i < st.offlineQueue.length then (none, trace)
      else (some { st with offlineQueue := failed }, trace)
  | Nat.succ fuel, i, st, failed, trace =>
      if h : i < st.offlineQueue.length then
        let op := st.offlineQueue.get ⟨i, h⟩
        let r := replayStep b nowMs st op
        match r.1 with
        | Except.ok _ => processLoop b nowMs fuel (i + 1) r.2 failed (trace ++ [op])
        | Except.error _ =>
            processLoop b nowMs fuel (i + 1) r.2 (failed ++ [op]) (trace ++ [op])
      else (some { st with offlineQueue := failed }, trace)

/-- DatabaseManager.processOfflineQueue (database.js lines 198 to 232):
return early without a client or with an empty queue; otherwise run the
replay loop from index 0 and finally replace the queue by the collected
failed operations. -/
def processOfflineQueue (b : Backend) (nowMs fuel : Nat) (st : DBState) :
    Option DBState × List QOp :=
  if !st.hasSupabase || st.offlineQueue.length = 0 then (some st, [])
  else processLoop b nowMs fuel 0 st [] []

/-- The window online event handler (database.js lines 25 to 29): set
isOnline and run a reconciliation pass. -/
def onOnline (b : Backend) (nowMs fuel : Nat) (st : DBState) :
    Option DBState × List QOp :=
  processOfflineQueue b nowMs fuel { st with isOnline := true }

/-- A sequence of facade create calls, each with its own clock reading. -/
def createMany (b : Backend) (calls : List (Nat × String × RecordData))
    (st : DBState) : DBState :=
  calls.foldl (fun s c => (create b c.1 s c.2.1 c.2.2).2) st

/-- A backend that accepts every operation (echoing the payload back). -/
def acceptAll : Backend :=
  { insertRes := fun _ d => Except.ok d
    updateRes := fun _ i u => Except.ok (mergeFields [("id", i)] u)
    deleteRes := fun _ i => Except.ok [("id", i)]
    selectRes := fun _ _ => Except.ok [] }

/-- A backend on which every remote attempt throws. -/
def rejectAll : Backend :=
  { insertRes := fun _ _ => Except.error ()
    updateRes := fun _ _ _ => Except.error ()
    deleteRes := fun _ _ => Except.error ()
    selectRes := fun _ _ => Except.error () }

/-- The id field of a successful facade result, none on an error. -/
def okId (r : Except Unit RecordData) : Option String :=
  match r with
  | Except.ok row => lookupField row "id"
  | Except.error _ => none

/- ---------------------------------------------------------------------
   SQL side: the inventory deduction trigger of src/sql/schema.sql.
   ings.quantity is an INTEGER column, sale_items.quantity an INTEGER,
   recipes.quantity a fixed-point DECIMAL used here at integral values.
--------------------------------------------------------------------- -/

/-- A row of the ingredients table (the fields the trigger touches). -/
structure Ingredient where
  id : String
  quantity : Int
  deriving DecidableEq, Repr

/-- A row of the recipes table: one menu item consumes `quantity` units
of one ingredient per sold unit. -/
structure Recipe where
  menu_item_id : String
  ingredient_id : String
  quantity : Int
  deriving DecidableEq, Repr

/-- The NEW row of the sale_items insert that fires the trigger. -/
structure SaleItem where
  menu_item_id : String
  quantity : Int
  deriving DecidableEq, Repr

/-- The trigger function update_inventory_after_sale (schema.sql lines
331 to 344): UPDATE ingredients SET quantity = quantity -
(NEW.quantity * r.quantity) FROM recipes r WHERE r.ingredient_id =
ingredients.id AND r.menu_item_id = NEW.menu_item_id.  Each ingredient
with a matching recipe row is decremented; there is no lower clamp. -/
def update_inventory_after_sale (recipes : List Recipe) (item : SaleItem)
    (ings : List Ingredient) : List Ingredient :=
  ings.map (fun i =>
    match recipes.find? (fun r =>
        r.ingredient_id == i.id && r.menu_item_id == item.menu_item_id) with
    | some r => { i with quantity := i.quantity - item.quantity * r.quantity }
    | none => i)

/-- The amount the trigger subtracts from one ingredient for one
inserted sale item: recipe quantity times sold quantity when a recipe
row matches, zero otherwise. -/
def saleDeduction (recipes : List Recipe) (item : SaleItem) (i : Ingredient) : Int :=
  match recipes.find? (fun r =>
      r.ingredient_id == i.id && r.menu_item_id == item.menu_item_id) with
  | some r => item.quantity * r.quantity
  | none => 0

/- ---------------------------------------------------------------------
   Service worker (src/sw.js): cache names, install, activate, and the
   periodic maintenance pass.
--------------------------------------------------------------------- -/

/-- sw.js line 3. -/
def STATIC_CACHE : String := "static-v2.0.0"

/-- sw.js line 4. -/
def DYNAMIC_CACHE : String := "dynamic-v2.0.0"

/-- The static manifest STATIC_FILES (sw.js lines 7 to 23). -/
def STATIC_FILES : List String :=
  ["/", "/index.html", "/manifest.json", "/js/config.js", "/js/database.js",
   "/js/pos.js", "/js/analytics.js", "/css/styles.css",
   "https://cdn.jsdelivr.net/npm/chart.js@4.4.0/dist/chart.umd.js",
   "https://cdn.jsdelivr.net/npm/@supabase/supabase-js@2",
   "/images/icons/icon-192x192.png", "/images/icons/icon-512x512.png"]

/-- One named cache: request URL to stored response body. -/
abbrev CacheStore := List (String × String)

/-- The CacheStorage object: cache name to cache contents. -/
abbrev Caches := List (String × CacheStore)

/-- caches.open: an absent name denotes a fresh empty cache. -/
def openCache (cs : Caches) (nm : String) : CacheStore :=
  match cs.find? (fun c => c.1 == nm) with
  | some c => c.2
  | none => []

/-- Write back the contents of one named cache. -/
def putCache (cs : Caches) (nm : String) (store : CacheStore) : Caches :=
  if cs.any (fun c => c.1 == nm) then
    cs.map (fun c => if c.1 == nm then (nm, store) else c)
  else cs ++ [(nm, store)]

/-- cache.addAll over a network `net` (none models a failed fetch).  Per
the Cache API, addAll is atomic: if every fetch succeeds all entries are
stored, if any fetch fails the promise rejects and the cache is left
unchanged. -/
def addAll (net : String → Option String) (urls : List String)
    (cache : CacheStore) : Except Unit CacheStore :=
  match urls.mapM (fun u => (net u).map (fun body => (u, body))) with
  | some entries => Except.ok (cache ++ entries)
  | none => Except.error ()

/-- The install listener (sw.js lines 26 to 42): open STATIC_CACHE, run
addAll over the manifest, then skipWaiting; the chain ends in a .catch
that only logs, so the promise handed to event.waitUntil resolves even
when addAll rejected.  The Bool is what the browser observes: whether
the install step completed successfully. -/
def installEvent (net : String → Option String) (cs : Caches) : Bool × Caches :=
  match addAll net STATIC_FILES (openCache cs STATIC_CACHE) with
  | Except.ok c => (true, putCache cs STATIC_CACHE c)
  | Except.error _ => (true, cs)

/-- The activate listener (sw.js lines 45 to 66): delete every cache
whose name is neither the current static nor the current dynamic one. -/
def activateEvent (cs : Caches) : Caches :=
  cs.filter (fun c => c.1 == STATIC_CACHE || c.1 == DYNAMIC_CACHE)

/-- One Runtime cache entry as performDailySync sees it: the request URL
and the parsed date header of the stored response, in ms since epoch
(none when the response has no date header). -/
structure CacheEntry where
  url : String
  dateHeader : Option Int
  deriving DecidableEq, Repr

/-- performDailySync (sw.js lines 266 to 294): compute oneWeekAgo =
Date.now() - 7*24*60*60*1000 and delete every entry whose date header
parses to a time before it; entries without a date header are kept. -/
def performDailySync (nowMs : Int) (entries : List CacheEntry) : List CacheEntry :=
  let oneWeekAgo := nowMs - 7 * 24 * 60 * 60 * 1000
  entries.filter (fun e =>
    match e.dateHeader with
    | some cacheDate => if cacheDate < oneWeekAgo then false else true
    | none => true)

/- ---------------------------------------------------------------------
   Concrete fixtures used by counterexamples and witnesses.
--------------------------------------------------------------------- -/

/-- A manager that is online with a working client and an empty queue. -/
def exOnline : DBState :=
  { hasSupabase := true, isOnline := true, offlineQueue := [], localStore := [] }

/-- A manager constructed with the Supabase library loaded while
navigator.onLine is false. -/
def exOffline : DBState := initState true false []

/-- An offline manager holding one persisted sales record. -/
def exOfflineStore : DBState :=
  { hasSupabase := true, isOnline := false, offlineQueue := []
    localStore := [("offline_sales", [[("id", "1"), ("total", "40")]])] }

/-- A queued create that every replay attempt will see rejected. -/
def exStuckOp : QOp := QOp.create "sales" [("total", "50")]

/-- An online manager whose queue holds exStuckOp. -/
def exStuckState : DBState :=
  { hasSupabase := true, isOnline := true, offlineQueue := [exStuckOp], localStore := [] }

/-- Two queued operations on the same record, enqueued in this order. -/
def exOpA : QOp := QOp.create "sales" [("id", "100"), ("total", "50")]

/-- See exOpA. -/
def exOpB : QOp := QOp.update "sales" "100" [("total", "75")]

/-- An online manager whose queue is [exOpA, exOpB]. -/
def exPairState : DBState :=
  { hasSupabase := true, isOnline := true, offlineQueue := [exOpA, exOpB], localStore := [] }

/-- A network on which the fetch of /index.html fails. -/
def failingNet : String → Option String :=
  fun u => if u == "/index.html" then none else some ("body-of:" ++ u)

/-- The caches left by a previous service-worker version. -/
def oldCaches : Caches := [("static-v1.0.0", [("/", "old-shell")])]

/-- A maintenance clock reading: 20 days after the epoch. -/
def exNow : Int := 20 * 24 * 60 * 60 * 1000

/-- A Runtime entry stored 8 days before exNow. -/
def exEntryEight : CacheEntry :=
  { url := "https://api.example/a", dateHeader := some (exNow - 8 * 24 * 60 * 60 * 1000) }

/-- A Runtime entry stored 6 days before exNow. -/
def exEntrySix : CacheEntry :=
  { url := "https://api.example/b", dateHeader := some (exNow - 6 * 24 * 60 * 60 * 1000) }

/-- The recipe row of the oversell scenario: menu item menu_1 consumes
2 units of ingredient ing_1 per sold unit. -/
def exRecipe : Recipe := { menu_item_id := "menu_1", ingredient_id := "ing_1", quantity := 2 }

/-- The ingredient row of the oversell scenario: 5 units in stock. -/
def exIngredient : Ingredient := { id := "ing_1", quantity := 5 }

/-- The oversold sale item: 3 units of menu_1, needing 6 units of ing_1. -/
def exOversoldItem : SaleItem := { menu_item_id := "menu_1", quantity := 3 }

/-- Two facade create calls issued while the backend is unreachable. -/
def exCalls : List (Nat × String × RecordData) :=
  [(1, "sales", [("total", "50")]), (2, "expenses", [("amount", "5")])]

/- ---------------------------------------------------------------------
   Helper lemmas.
--------------------------------------------------------------------- -/

/-- Replaying an operation online succeeds exactly when the backend
accepts it, and then leaves the manager state unchanged. -/
theorem replayStep_online_ok (b : Backend) (nowMs : Nat) (st : DBState) (op : QOp)
    (r : RecordData) (hon : st.isOnline = true) (hsb : st.hasSupabase = true)
    (hr : opResult b op = Except.ok r) :
    replayStep b nowMs st op = (Except.ok r, st) := by
  cases op <;> simp_all [replayStep, opResult, create, update, delete]

/-- Replaying an operation online against a rejecting backend re-throws
and, inside the catch of the facade call, pushes the operation back onto
the live queue. -/
theorem replayStep_online_error (b : Backend) (nowMs : Nat) (st : DBState) (op : QOp)
    (hon : st.isOnline = true) (hsb : st.hasSupabase = true)
    (hr : opResult b op = Except.error ()) :
    replayStep b nowMs st op
      = (Except.error (), { st with offlineQueue := st.offlineQueue ++ [op] }) := by
  cases op <;> simp_all [replayStep, opResult, create, update, delete]

/-- Every replay step only ever appends to the queue, so the prefix that
existed when the pass started is stable. -/
theorem replayStep_queue_extend (b : Backend) (nowMs : Nat) (st : DBState) (op : QOp) :
    ∃ e : List QOp, (replayStep b nowMs st op).2.offlineQueue = st.offlineQueue ++ e := by
  cases op with
  | create t d =>
      simp only [replayStep, create]
      by_cases hc : (st.isOnline && st.hasSupabase) = true
      · rw [if_pos hc]
        cases b.insertRes t d
        · exact ⟨_, rfl⟩
        · exact ⟨[], by simp⟩
      · rw [if_neg hc]
        exact ⟨_, rfl⟩
  | update t i u =>
      simp only [replayStep, update]
      by_cases hc : (st.isOnline && st.hasSupabase) = true
      · rw [if_pos hc]
        cases b.updateRes t i u
        · exact ⟨_, rfl⟩
        · exact ⟨[], by simp⟩
      · rw [if_neg hc]
        exact ⟨_, rfl⟩
  | delete t i =>
      simp only [replayStep, delete]
      by_cases hc : (st.isOnline && st.hasSupabase) = true
      · rw [if_pos hc]
        cases b.deleteRes t i
        · exact ⟨_, rfl⟩
        · exact ⟨[], by simp⟩
      · rw [if_neg hc]
        exact ⟨_, rfl⟩

/-- When the backend accepts every replay, the loop finishes within fuel
equal to the remaining queue length, collects no failures beyond the
accumulator, and attempts exactly the remaining entries in order. -/
theorem processLoop_allOk (b : Backend) (nowMs : Nat)
    (hall : ∀ op, ∃ r, opResult b op = Except.ok r) :
    ∀ (fuel i : Nat) (st : DBState) (failed trace : List QOp),
      st.isOnline = true → st.hasSupabase = true →
      st.offlineQueue.length ≤ i + fuel →
      processLoop b nowMs fuel i st failed trace
        = (some { st with offlineQueue := failed }, trace ++ st.offlineQueue.drop i) := by
  intro fuel
  induction fuel with
  | zero =>
      intro i st failed trace hon hsb hle
      have hnl : ¬ i < st.offlineQueue.length := by omega
      have hdrop : st.offlineQueue.drop i = [] := List.drop_eq_nil_of_le (by omega)
      simp [processLoop, hnl, hdrop]
  | succ fuel ih =>
      intro i st failed trace hon hsb hle
      by_cases h : i < st.offlineQueue.length
      · obtain ⟨r, hr⟩ := hall (st.offlineQueue.get ⟨i, h⟩)
        have hstep := replayStep_online_ok b nowMs st (st.offlineQueue.get ⟨i, h⟩) r hon hsb hr
        simp only [processLoop, dif_pos h, hstep]
        rw [ih (i + 1) st failed (trace ++ [st.offlineQueue.get ⟨i, h⟩]) hon hsb (by omega)]
        rw [List.drop_eq_getElem_cons h]
        simp
      · have hdrop : st.offlineQueue.drop i = [] := List.drop_eq_nil_of_le (by omega)
        simp [processLoop, h, hdrop]

/-- Whatever the backend does, the first iterations of the loop attempt
exactly the entries that were in the queue when it started, in order:
the body only appends, so the original prefix and the index walk are
unaffected by failures. -/
theorem processLoop_trace (b : Backend) (nowMs : Nat) :
    ∀ (fuel i : Nat) (st : DBState) (failed trace : List QOp),
      i + fuel ≤ st.offlineQueue.length →
      (processLoop b nowMs fuel i st failed trace).2
        = trace ++ (st.offlineQueue.take (i + fuel)).drop i := by
  intro fuel
  induction fuel with
  | zero =>
      intro i st failed trace hle
      have hdrop : (st.offlineQueue.take (i + 0)).drop i = [] :=
        List.drop_eq_nil_of_le (by rw [List.length_take]; omega)
      by_cases h : i < st.offlineQueue.length <;> simp [processLoop, h, hdrop]
  | succ fuel ih =>
      intro i st failed trace hle
      have h : i < st.offlineQueue.length := by omega
      obtain ⟨e, he⟩ := replayStep_queue_extend b nowMs st (st.offlineQueue.get ⟨i, h⟩)
      have hlen : (i + 1) + fuel ≤ (replayStep b nowMs st
          (st.offlineQueue.get ⟨i, h⟩)).2.offlineQueue.length := by
        rw [he, List.length_append]; omega
      have htake : ((replayStep b nowMs st (st.offlineQueue.get ⟨i, h⟩)).2.offlineQueue.take
          ((i + 1) + fuel)) = st.offlineQueue.take ((i + 1) + fuel) := by
        rw [he]; exact List.take_append_of_le_length (by omega)
      have hsplit : (st.offlineQueue.take (i + (fuel + 1))).drop i
          = st.offlineQueue.get ⟨i, h⟩ :: (st.offlineQueue.take ((i + 1) + fuel)).drop (i + 1) := by
        have hi : i < (st.offlineQueue.take (i + (fuel + 1))).length := by
          rw [List.length_take]; omega
        rw [List.drop_eq_getElem_cons hi]
        congr 1
        · simp [List.getElem_take]
        · have harith : i + (fuel + 1) = i + 1 + fuel := by omega
          rw [harith]
      cases hres : (replayStep b nowMs st (st.offlineQueue.get ⟨i, h⟩)).1 with
      | error err =>
          simp only [processLoop, dif_pos h, hres]
          rw [ih (i + 1) _ (failed ++ [st.offlineQueue.get ⟨i, h⟩])
              (trace ++ [st.offlineQueue.get ⟨i, h⟩]) hlen]
          rw [htake, hsplit]
          simp
      | ok r =>
          simp only [processLoop, dif_pos h, hres]
          rw [ih (i + 1) _ failed (trace ++ [st.offlineQueue.get ⟨i, h⟩]) hlen]
          rw [htake, hsplit]
          simp

/-- When every queue entry equals A and the backend rejects everything,
each iteration re-appends A to the live array, so the loop exhausts any
fuel, attempting A once per unit of fuel and never completing. -/
theorem processLoop_reject_none (nowMs : Nat) (A : QOp) :
    ∀ (fuel i : Nat) (st : DBState) (failed trace : List QOp),
      st.isOnline = true → st.hasSupabase = true →
      (∀ x ∈ st.offlineQueue, x = A) → i < st.offlineQueue.length →
      processLoop rejectAll nowMs fuel i st failed trace
        = (none, trace ++ List.replicate fuel A) := by
  intro fuel
  induction fuel with
  | zero => intro i st failed trace hon hsb hall h; simp [processLoop, h]
  | succ fuel ih =>
      intro i st failed trace hon hsb hall h
      have hopA : st.offlineQueue.get ⟨i, h⟩ = A := hall _ (st.offlineQueue.get_mem i h)
      have hres : opResult rejectAll (st.offlineQueue.get ⟨i, h⟩) = Except.error () := by
        cases (st.offlineQueue.get ⟨i, h⟩) <;> rfl
      have hstep := replayStep_online_error rejectAll nowMs st (st.offlineQueue.get ⟨i, h⟩)
        hon hsb hres
      have hall2 : ∀ x ∈ st.offlineQueue ++ [st.offlineQueue.get ⟨i, h⟩], x = A := by
        intro x hx
        rcases List.mem_append.mp hx with hx | hx
        · exact hall x hx
        · rw [List.mem_singleton.mp hx, hopA]
      have hlt2 : i + 1 < (st.offlineQueue ++ [st.offlineQueue.get ⟨i, h⟩]).length := by
        rw [List.length_append]; simp; omega
      have hrec := ih (i + 1)
        { st with offlineQueue := st.offlineQueue ++ [st.offlineQueue.get ⟨i, h⟩] }
        (failed ++ [st.offlineQueue.get ⟨i, h⟩]) (trace ++ [st.offlineQueue.get ⟨i, h⟩])
        hon hsb hall2 hlt2
      simp only [processLoop, dif_pos h, hstep, hrec]
      rw [hopA]
      simp [List.replicate_succ]

/-- The all-accepting backend accepts every queued operation. -/
theorem acceptAll_ok : ∀ op, ∃ r, opResult acceptAll op = Except.ok r := by
  intro op; cases op <;> exact ⟨_, rfl⟩

/-- A full reconciliation pass against an all-accepting backend: it
finishes, empties the queue, and its attempt trace is the whole queue. -/
theorem processOfflineQueue_allOk (b : Backend) (nowMs : Nat)
    (hall : ∀ op, ∃ r, opResult b op = Except.ok r) (st : DBState)
    (hon : st.isOnline = true) (hsb : st.hasSupabase = true) :
    processOfflineQueue b nowMs st.offlineQueue.length st
      = (some { st with offlineQueue := [] }, st.offlineQueue) := by
  unfold processOfflineQueue
  by_cases hq : st.offlineQueue.length = 0
  · rw [if_pos (by simp [hsb, hq])]
    have hnil : st.offlineQueue = [] := List.length_eq_zero.mp hq
    cases st
    simp_all
  · rw [if_neg (by simp [hsb, hq])]
    rw [processLoop_allOk b nowMs hall st.offlineQueue.length 0 st [] [] hon hsb (by omega)]
    simp

/-- An offline create keeps the manager offline, keeps the client flag
and grows the queue by exactly one entry. -/
theorem create_offline_fields (b : Backend) (nowMs : Nat) (st : DBState) (t : String)
    (d : RecordData) (h : st.isOnline = false) :
    (create b nowMs st t d).2.isOnline = false ∧
    (create b nowMs st t d).2.hasSupabase = st.hasSupabase ∧
    (create b nowMs st t d).2.offlineQueue.length = st.offlineQueue.length + 1 := by
  simp [create, h]

/-- A sequence of offline creates appends exactly one queue entry per
call and changes neither reachability flag. -/
theorem createMany_offline (b : Backend) :
    ∀ (calls : List (Nat × String × RecordData)) (st : DBState), st.isOnline = false →
      (createMany b calls st).isOnline = false ∧
      (createMany b calls st).hasSupabase = st.hasSupabase ∧
      (createMany b calls st).offlineQueue.length
        = st.offlineQueue.length + calls.length := by
  intro calls
  induction calls with
  | nil => intro st h; simp [createMany, h]
  | cons c cs ih =>
      intro st h
      have hstep := create_offline_fields b c.1 st c.2.1 c.2.2 h
      have hrec := ih (create b c.1 st c.2.1 c.2.2).2 hstep.1
      have hfold : createMany b (c :: cs) st
          = createMany b cs (create b c.1 st c.2.1 c.2.2).2 := rfl
      refine ⟨hfold ▸ hrec.1, ?_, ?_⟩
      · rw [hfold, hrec.2.1, hstep.2.1]
      · rw [hfold, hrec.2.2, hstep.2.2]
        simp [List.length_cons]
        omega

/-- Searching a record for one key is unaffected by filtering out the
entries of a different key. -/
theorem find?_key_filter_ne (d : RecordData) (k₁ k₂ : String) (h : k₁ ≠ k₂) :
    (d.filter (fun p => p.1 ≠ k₂)).find? (fun p => p.1 = k₁)
      = d.find? (fun p => p.1 = k₁) := by
  rw [List.find?_filter]
  congr 1
  funext a
  by_cases ha : a.1 = k₁
  · have hne : a.1 ≠ k₂ := by rw [ha]; exact h
    simp [ha, hne, h]
  · simp [ha]

/-- Reading back the field a spread just set yields the new value. -/
theorem lookupField_setField (d : RecordData) (k v : String) :
    lookupField (setField d k v) k = some v := by
  unfold lookupField setField
  rw [List.find?_append]
  have h1 : (d.filter (fun p => p.1 ≠ k)).find? (fun p => p.1 = k) = none := by
    rw [List.find?_eq_none]
    intro p hp
    have hmem := (List.mem_filter.mp hp).2
    simpa using hmem
  rw [h1]
  simp

/-- Setting one field leaves the others readable unchanged. -/
theorem lookupField_setField_ne (d : RecordData) (k₁ k₂ v : String) (h : k₁ ≠ k₂) :
    lookupField (setField d k₂ v) k₁ = lookupField d k₁ := by
  unfold lookupField setField
  rw [List.find?_append, find?_key_filter_ne d k₁ k₂ h]
  cases hf : d.find? (fun p => p.1 = k₁) with
  | some p => simp [hf]
  | none => simp [hf, List.find?_cons, Ne.symm h]

/- ---------------------------------------------------------------------
   Claim C1.
--------------------------------------------------------------------- -/

/-- Claim C1, counterexample.  The claim says a failed remote mutation is
absorbed at the facade boundary and returned as a best-effort local
result; but at this concrete input the online create against a rejecting
backend queues the operation AND returns the thrown error to the caller:
no local result is produced, the failure propagates. -/
theorem C1_counterexample :
    (create rejectAll 0 exOnline "sales" [("total", "50")]).1 = Except.error () ∧
    (create rejectAll 0 exOnline "sales" [("total", "50")]).2.offlineQueue
      = [QOp.create "sales" [("total", "50")]] := ⟨rfl, rfl⟩

/-- Claim C1, amended.  For every create, update or delete made while
the remote backend is configured and online, if the remote attempt
throws then the operation is appended to the Offline Write Queue and the
error is re-thrown to the caller; no best-effort local result is
returned and the failure is not absorbed at the facade boundary. -/
theorem C1_queue_and_rethrow (b : Backend) (nowMs : Nat) (st : DBState) (t i : String)
    (d u : RecordData) (hon : st.isOnline = true) (hsb : st.hasSupabase = true) :
    (b.insertRes t d = Except.error () →
      create b nowMs st t d =
        (Except.error (), { st with offlineQueue := st.offlineQueue ++ [QOp.create t d] })) ∧
    (b.updateRes t i u = Except.error () →
      update b st t i u =
        (Except.error (), { st with offlineQueue := st.offlineQueue ++ [QOp.update t i u] })) ∧
    (b.deleteRes t i = Except.error () →
      delete b st t i =
        (Except.error (), { st with offlineQueue := st.offlineQueue ++ [QOp.delete t i] })) := by
  refine ⟨fun h => ?_, fun h => ?_, fun h => ?_⟩ <;>
    simp [create, update, delete, hon, hsb, h]

/-- Claim C1, witness: the amended statement evaluated on a concrete
online manager whose update is rejected by the backend. -/
theorem C1_queue_and_rethrow_witness :
    exOnline.isOnline = true ∧ exOnline.hasSupabase = true ∧
    update rejectAll exOnline "sales" "7" [("total", "60")]
      = (Except.error (),
         { exOnline with
             offlineQueue := exOnline.offlineQueue ++ [QOp.update "sales" "7" [("total", "60")]] }) :=
  ⟨rfl, rfl,
   (C1_queue_and_rethrow rejectAll 0 exOnline "sales" "7" [("x", "1")] [("total", "60")]
      rfl rfl).2.1 rfl⟩

/- ---------------------------------------------------------------------
   Claim C2.
--------------------------------------------------------------------- -/

/-- Claim C2 (confirmed).  Every sequence of create calls made while the
backend is unreachable appends exactly one entry per call to the Offline
Write Queue, and a reconciliation pass against a reachable backend that
accepts every replayed operation completes and leaves the queue empty. -/
theorem C2_offline_creates_enqueue_and_drain (b : Backend)
    (calls : List (Nat × String × RecordData)) (st : DBState)
    (hoff : st.isOnline = false) (hsb : st.hasSupabase = true) :
    (createMany b calls st).offlineQueue.length
      = st.offlineQueue.length + calls.length ∧
    onOnline acceptAll 0 (createMany b calls st).offlineQueue.length (createMany b calls st)
      = (some { createMany b calls st with isOnline := true, offlineQueue := [] },
         (createMany b calls st).offlineQueue) := by
  obtain ⟨h1, h2, h3⟩ := createMany_offline b calls st hoff
  refine ⟨h3, ?_⟩
  unfold onOnline
  have hsb2 : ({ createMany b calls st with isOnline := true } : DBState).hasSupabase = true := by
    rw [show ({ createMany b calls st with isOnline := true } : DBState).hasSupabase
        = (createMany b calls st).hasSupabase from rfl, h2, hsb]
  exact processOfflineQueue_allOk acceptAll 0 acceptAll_ok
    { createMany b calls st with isOnline := true } rfl hsb2

/-- Claim C2, witness: two offline creates, then a reconciliation pass
that accepts both. -/
theorem C2_offline_creates_enqueue_and_drain_witness :
    exOffline.isOnline = false ∧ exOffline.hasSupabase = true ∧
    ((createMany acceptAll exCalls exOffline).offlineQueue.length
        = exOffline.offlineQueue.length + exCalls.length ∧
     onOnline acceptAll 0 (createMany acceptAll exCalls exOffline).offlineQueue.length
        (createMany acceptAll exCalls exOffline)
      = (some { createMany acceptAll exCalls exOffline with
                  isOnline := true, offlineQueue := [] },
         (createMany acceptAll exCalls exOffline).offlineQueue)) :=
  ⟨rfl, rfl, C2_offline_creates_enqueue_and_drain acceptAll exCalls exOffline rfl rfl⟩

/- ---------------------------------------------------------------------
   Claim C3.
--------------------------------------------------------------------- -/

/-- Claim C3, counterexample.  The claim says the Offline Write Queue is
persisted so that it survives a page reload; but the queue lives only in
the constructor-initialised in-memory array: here an offline create
enqueues one operation and a page reload leaves the queue empty. -/
theorem C3_counterexample :
    (create acceptAll 1700000000000 exOffline "sales" [("total", "50")]).2.offlineQueue
      = [QOp.create "sales"
          (setField (setField [("total", "50")] "id" (Nat.repr 1700000000000)) "_offline" "true")] ∧
    (pageReload true true
        (create acceptAll 1700000000000 exOffline "sales" [("total", "50")]).2).offlineQueue
      = [] := ⟨rfl, rfl⟩

/-- Claim C3, amended.  Enqueue is a synchronous in-memory push that
appends exactly one Pending Operation and never drops one within the
session, but the queue is not durable: it is held in memory only, and
after a page reload it is empty regardless of its previous contents. -/
theorem C3_enqueue_in_memory_only (b : Backend) (nowMs : Nat) (st : DBState) (t : String)
    (d : RecordData) (hoff : (st.isOnline && st.hasSupabase) = false) :
    (create b nowMs st t d).2.offlineQueue
      = st.offlineQueue ++
        [QOp.create t (setField (setField d "id" (Nat.repr nowMs)) "_offline" "true")] ∧
    ∀ sb nav : Bool, (pageReload sb nav (create b nowMs st t d).2).offlineQueue = [] := by
  constructor
  · simp [create, hoff]
  · intro sb nav; rfl

/-- Claim C3, witness: the amended statement evaluated on a concrete
offline create followed by a reload. -/
theorem C3_enqueue_in_memory_only_witness :
    (exOffline.isOnline && exOffline.hasSupabase) = false ∧
    ((create acceptAll 5 exOffline "sales" [("a", "1")]).2.offlineQueue
        = exOffline.offlineQueue ++
          [QOp.create "sales" (setField (setField [("a", "1")] "id" (Nat.repr 5)) "_offline" "true")] ∧
     ∀ sb nav : Bool,
       (pageReload sb nav (create acceptAll 5 exOffline "sales" [("a", "1")]).2).offlineQueue = []) :=
  ⟨rfl, C3_enqueue_in_memory_only acceptAll 5 exOffline "sales" [("a", "1")] rfl⟩

/- ---------------------------------------------------------------------
   Claim C4.
--------------------------------------------------------------------- -/

/-- Claim C4 (confirmed).  Reconciliation preserves submission order:
for any backend (accepting, rejecting, or mixed), the attempt trace of a
pass over the first offlineQueue.length iterations is exactly the queue
at pass start, in order.  In particular if A was enqueued before B then
A is attempted before B, with no reordering and no coalescing, including
when A and B target the same record (see the witness). -/
theorem C4_replay_preserves_fifo_order (b : Backend) (nowMs : Nat) (st : DBState)
    (hsb : st.hasSupabase = true) :
    (processOfflineQueue b nowMs st.offlineQueue.length st).2 = st.offlineQueue := by
  unfold processOfflineQueue
  by_cases hq : st.offlineQueue.length = 0
  · rw [if_pos (by simp [hsb, hq])]
    exact (List.length_eq_zero.mp hq).symm
  · rw [if_neg (by simp [hsb, hq])]
    rw [processLoop_trace b nowMs st.offlineQueue.length 0 st [] [] (by omega)]
    simp [List.take_length]

/-- Claim C4, witness: a queue holding a create and then an update of
the same record id, replayed against a backend that rejects everything,
is still attempted in submission order. -/
theorem C4_replay_preserves_fifo_order_witness :
    exPairState.hasSupabase = true ∧
    (processOfflineQueue rejectAll 0 exPairState.offlineQueue.length exPairState).2
      = exPairState.offlineQueue :=
  ⟨rfl, C4_replay_preserves_fifo_order rejectAll 0 exPairState rfl⟩

/- ---------------------------------------------------------------------
   Claim C5.
--------------------------------------------------------------------- -/

/-- Claim C5, counterexample.  The claim says the per-sale inventory
deduction is clamped at a floor of zero so no quantity ever becomes
negative; but the trigger subtracts without a clamp: an ingredient with
quantity 5 and a recipe needing 2 units, hit by a sale of 3 units, ends
at quantity -1. -/
theorem C5_counterexample :
    update_inventory_after_sale [exRecipe] exOversoldItem [exIngredient]
      = [{ id := "ing_1", quantity := -1 }] ∧ ((-1 : Int) < 0) := ⟨rfl, by decide⟩

/-- Claim C5, amended.  The inventory trigger decrements each matching
ingredient by recipeQuantity times soldQuantity with NO clamp: the new
quantity is exactly the old quantity minus the deduction, and therefore
goes negative whenever the deduction exceeds the stock on hand.  The
client-side addSale inserts only the sale row and performs no deduction
itself. -/
theorem C5_unclamped_deduction (recipes : List Recipe) (item : SaleItem)
    (ings : List Ingredient) (k : Nat) (dflt : Ingredient) (hk : k < ings.length) :
    ((update_inventory_after_sale recipes item ings).getD k dflt).quantity
      = (ings.getD k dflt).quantity - saleDeduction recipes item (ings.getD k dflt) := by
  have hget : ings[k]? = some ings[k] := List.getElem?_eq_getElem hk
  rw [List.getD_eq_getElem?_getD, List.getD_eq_getElem?_getD,
      update_inventory_after_sale, List.getElem?_map, hget]
  simp only [Option.map_some', Option.getD_some]
  unfold saleDeduction
  cases hfind : recipes.find? (fun r =>
      r.ingredient_id == ings[k].id && r.menu_item_id == item.menu_item_id) with
  | none => simp [hfind]
  | some r => simp [hfind]

/-- Claim C5, witness: the amended statement evaluated on the oversell
fixture. -/
theorem C5_unclamped_deduction_witness :
    0 < [exIngredient].length ∧
    ((update_inventory_after_sale [exRecipe] exOversoldItem [exIngredient]).getD 0 exIngredient).quantity
      = ([exIngredient].getD 0 exIngredient).quantity
        - saleDeduction [exRecipe] exOversoldItem ([exIngredient].getD 0 exIngredient) :=
  ⟨by decide,
   C5_unclamped_deduction [exRecipe] exOversoldItem [exIngredient] 0 exIngredient (by decide)⟩

/- ---------------------------------------------------------------------
   Claim C6.
--------------------------------------------------------------------- -/

/-- Claim C6 (code bug).  The claim (and the manifest semantics of
addAll) require a failed fetch to fail the whole install step, leaving
the previous cache version active.  The install chain of sw.js however
ends in a .catch that only logs, so event.waitUntil receives a resolved
promise: at this concrete input, where the fetch of /index.html fails,
the install step completes successfully with nothing stored, and the
subsequent activation deletes the previous cache version anyway. -/
theorem C6_install_failure_swallowed :
    (installEvent failingNet oldCaches).1 = true ∧
    (installEvent failingNet oldCaches).2 = oldCaches ∧
    activateEvent (installEvent failingNet oldCaches).2 = [] := ⟨rfl, rfl, rfl⟩

/- ---------------------------------------------------------------------
   Claim C7.
--------------------------------------------------------------------- -/

/-- Claim C7 (confirmed).  A periodic-maintenance pass deletes every
Runtime cache entry whose stored timestamp is more than 7 days before
the current time and retains every entry at least as young as the
7-day boundary. -/
theorem C7_maintenance_retention (nowMs d : Int) (entries : List CacheEntry)
    (e : CacheEntry) (he : e ∈ entries) (hd : e.dateHeader = some d) :
    (d < nowMs - 7 * 24 * 60 * 60 * 1000 → e ∉ performDailySync nowMs entries) ∧
    (nowMs - 7 * 24 * 60 * 60 * 1000 ≤ d → e ∈ performDailySync nowMs entries) := by
  unfold performDailySync
  constructor
  · intro hold hmem
    have hp := (List.mem_filter.mp hmem).2
    simp only [hd] at hp
    rw [if_pos hold] at hp
    exact Bool.false_ne_true hp
  · intro hyoung
    refine List.mem_filter.mpr ⟨he, ?_⟩
    simp only [hd]
    rw [if_neg (not_lt.mpr hyoung)]

/-- Claim C7, witness: an entry stored 8 days ago is deleted and one
stored 6 days ago is retained. -/
theorem C7_maintenance_retention_witness :
    exEntryEight ∉ performDailySync exNow [exEntryEight, exEntrySix] ∧
    exEntrySix ∈ performDailySync exNow [exEntryEight, exEntrySix] :=
  ⟨(C7_maintenance_retention exNow (exNow - 8 * 24 * 60 * 60 * 1000)
      [exEntryEight, exEntrySix] exEntryEight (by decide) rfl).1 (by decide),
   (C7_maintenance_retention exNow (exNow - 6 * 24 * 60 * 60 * 1000)
      [exEntryEight, exEntrySix] exEntrySix (by decide) rfl).2 (by decide)⟩

/- ---------------------------------------------------------------------
   Claim C8.
--------------------------------------------------------------------- -/

/-- Claim C8, counterexample.  The claim says an offline client id is
built from a time component plus a random suffix so that two creates in
the same millisecond receive distinct ids; but the id is exactly
Date.now().toString(): here two different offline creates in the same
millisecond both receive the id 1700000000000. -/
theorem C8_counterexample :
    okId (create acceptAll 1700000000000 exOffline "sales" [("total", "50")]).1
      = okId (create acceptAll 1700000000000 exOffline "expenses" [("amount", "5")]).1 ∧
    okId (create acceptAll 1700000000000 exOffline "sales" [("total", "50")]).1
      = some "1700000000000" := ⟨rfl, rfl⟩

/-- Claim C8, amended.  The identifier assigned to a record created
while offline is exactly the decimal string of the creation millisecond
with no random suffix, so any two offline creates in the same
millisecond receive the same id and ids are distinct only across
distinct millisecond timestamps; nothing prevents collision with a
server-assigned identifier. -/
theorem C8_timestamp_only_id (b : Backend) (nowMs : Nat) (st : DBState) (t : String)
    (d : RecordData) (hoff : (st.isOnline && st.hasSupabase) = false) :
    okId (create b nowMs st t d).1 = some (Nat.repr nowMs) := by
  have hcre : (create b nowMs st t d).1
      = Except.ok (setField (setField d "id" (Nat.repr nowMs)) "_offline" "true") := by
    simp [create, hoff]
  rw [hcre]
  show lookupField (setField (setField d "id" (Nat.repr nowMs)) "_offline" "true") "id" = _
  rw [lookupField_setField_ne _ _ _ _ (by decide), lookupField_setField]

/-- Claim C8, witness: the amended statement evaluated on a concrete
offline create. -/
theorem C8_timestamp_only_id_witness :
    (exOffline.isOnline && exOffline.hasSupabase) = false ∧
    okId (create acceptAll 1700000000000 exOffline "sales" [("total", "50")]).1
      = some (Nat.repr 1700000000000) :=
  ⟨rfl, C8_timestamp_only_id acceptAll 1700000000000 exOffline "sales" [("total", "50")] rfl⟩

/- ---------------------------------------------------------------------
   Claim C9.
--------------------------------------------------------------------- -/

/-- Claim C9 (code bug).  The claim says a reconciliation pass
terminates with each operation attempted exactly once even when some
replays fail.  In the source, a failing replay re-appends the operation
(inside the catch of the facade call) to the very array the for...of
loop is iterating, so the pass re-attempts it unboundedly: on a queue
holding one persistently rejected create, for EVERY fuel bound the loop
is still running (first component none) and has attempted that same
operation once per unit of fuel. -/
theorem C9_reconciliation_nonterminating : ∀ fuel : Nat,
    processOfflineQueue rejectAll 0 fuel exStuckState
      = (none, List.replicate fuel exStuckOp) := by
  intro fuel
  unfold processOfflineQueue
  rw [if_neg (by decide)]
  have h := processLoop_reject_none 0 exStuckOp fuel 0 exStuckState [] [] rfl rfl
    (by intro x hx; simpa using List.mem_singleton.mp hx) (by decide)
  simpa using h

/- ---------------------------------------------------------------------
   Claim C10.
--------------------------------------------------------------------- -/

/-- Claim C10 (confirmed).  While the backend is unreachable, update and
delete return a synthesized record, leave the persisted local copy
(localStorage) of every table unchanged, and a read issued afterwards,
still unreachable, returns exactly the same records as a read issued
before. -/
theorem C10_offline_update_delete_frame (b : Backend) (st : DBState) (t i rt : String)
    (u : RecordData) (f : Filters) (hoff : (st.isOnline && st.hasSupabase) = false) :
    (update b st t i u).1
      = Except.ok (setField (mergeFields [("id", i)] u) "_offline" "true") ∧
    (update b st t i u).2.localStore = st.localStore ∧
    read b (update b st t i u).2 rt f = read b st rt f ∧
    (delete b st t i).1 = Except.ok [("id", i), ("_deleted", "true"), ("_offline", "true")] ∧
    (delete b st t i).2.localStore = st.localStore ∧
    read b (delete b st t i).2 rt f = read b st rt f := by
  refine ⟨?_, ?_, ?_, ?_, ?_, ?_⟩ <;> simp [update, delete, read, hoff]

/-- Claim C10, witness: the frame property evaluated on a concrete
offline manager holding one persisted sales record. -/
theorem C10_offline_update_delete_frame_witness :
    (exOfflineStore.isOnline && exOfflineStore.hasSupabase) = false ∧
    ((update acceptAll exOfflineStore "sales" "1" [("total", "99")]).1
        = Except.ok (setField (mergeFields [("id", "1")] [("total", "99")]) "_offline" "true") ∧
     (update acceptAll exOfflineStore "sales" "1" [("total", "99")]).2.localStore
        = exOfflineStore.localStore ∧
     read acceptAll (update acceptAll exOfflineStore "sales" "1" [("total", "99")]).2
        "sales" { limit := none }
        = read acceptAll exOfflineStore "sales" { limit := none } ∧
     (delete acceptAll exOfflineStore "sales" "1").1
        = Except.ok [("id", "1"), ("_deleted", "true"), ("_offline", "true")] ∧
     (delete acceptAll exOfflineStore "sales" "1").2.localStore = exOfflineStore.localStore ∧
     read acceptAll (delete acceptAll exOfflineStore "sales" "1").2 "sales" { limit := none }
        = read acceptAll exOfflineStore "sales" { limit := none }) :=
  ⟨rfl, C10_offline_update_delete_frame acceptAll exOfflineStore "sales" "1" "sales"
    [("total", "99")] { limit := none } rfl⟩

end Sandwich
